import Mathlib

/-!
Shallow embedding of the character rules engine of `ddcampaignmanagerpro`:
the validation pipeline (`src/app/modules/utils/character-validation.ts`),
the multiclass system (`src/app/modules/utils/multiclass-system.ts`),
the spell system (`src/unnamed/part_001`), the export/import envelope
(`src/app/modules/utils/character-export.ts`) and the character manager
store operations (`src/app/modules/characters.ts`).

Modelling conventions:
- TypeScript numbers holding integer quantities (levels, scores, hit points,
  weights) are modelled as `Int`.  `Math.floor(x / 2)` on an integer `x` is
  Lean's `x / 2` (`Int.ediv`, which is the real floor for a positive divisor).
- The two 80%-threshold comparisons `a > b * 0.8` are carried out in exact
  arithmetic as `5 * a > 4 * b` (the same predicate over the rationals).
- Optional TypeScript fields are `Option`; a JavaScript falsy-check on a
  string (`if (s)`, `s || t`) tests both for absence and for the empty string.
- Methods that throw are embedded with `Except String`; pure methods that
  cannot throw keep a plain function type.
-/

/-- The six ability scores of a character (the `abilityScores` record). -/
structure AbilityScores where
  strength : Int
  dexterity : Int
  constitution : Int
  intelligence : Int
  wisdom : Int
  charisma : Int
deriving DecidableEq, Repr

/-- A learned spell.  `prepared` is set by daily preparation; spells coming
from the rule tables carry `prepared := false` (the field is absent, hence
falsy, in the TypeScript objects). -/
structure Spell where
  name : String
  level : Int
  school : Option String := none
  prepared : Bool := false
deriving DecidableEq, Repr

/-- An inventory item.  `weight` is optional because the validation code
reads it as `item.weight || 0`. -/
structure InventoryItem where
  id : String
  name : String
  weight : Option Int := none
deriving DecidableEq, Repr

/-- One entry of the `multiclass` list, a `{class, level}` pair. -/
structure MulticlassEntry where
  «class» : String
  level : Int
deriving DecidableEq, Repr

/-- The four named trait lists. -/
structure Traits where
  personality : List String
  ideals : List String
  bonds : List String
  flaws : List String
deriving DecidableEq, Repr

/-- An alignment as a `{moral, ethical}` pair. -/
structure AlignmentPair where
  moral : String
  ethical : String
deriving DecidableEq, Repr

/-- A character record.  Fields the validation pipeline reads but that the
`Character` interface leaves optional are `Option`; `exportedAt` is the stamp
`sanitizeCharacterData` adds to an exported character. -/
structure Character where
  id : String
  name : String
  race : String
  «class» : String
  level : Int
  experience : Int
  status : Option String := none
  abilityScores : AbilityScores
  hitPoints : Int
  armorClass : Int
  campaignId : Option String := none
  inventory : List InventoryItem := []
  spells : List Spell := []
  backstory : Option String := none
  traits : Option Traits := none
  multiclass : Option (List MulticlassEntry) := none
  archetypeFeatures : Option (List String) := none
  alignment : Option AlignmentPair := none
  skills : Option (List (String × Int)) := none
  exportedAt : Option Int := none
deriving DecidableEq, Repr

/-- The aggregated result of `validateCharacter`. -/
structure ValidationResult where
  isValid : Bool
  errors : List String
  warnings : List String
deriving DecidableEq, Repr

/-- The result shape of a delegated validation (`{isValid, errors}`). -/
structure DelegateResult where
  isValid : Bool
  errors : List String
deriving DecidableEq, Repr

/-- JavaScript `String.prototype.trim`: strip whitespace from both ends. -/
def jsTrim (s : String) : String :=
  String.mk ((s.data.dropWhile Char.isWhitespace).reverse.dropWhile Char.isWhitespace).reverse

/-- The capitalisation `ability.charAt(0).toUpperCase() + ability.slice(1)`
used when building error messages. -/
def capitalize (s : String) : String :=
  match s.data with
  | [] => ""
  | ch :: rest => String.mk (ch.toUpper :: rest)

/-- Shorthand for a conditionally pushed message: `if (cond) list.push(msg)`. -/
def condMsg (cond : Bool) (msg : String) : List String :=
  if cond then [msg] else []

/-- JavaScript comparison `v < m` where `v` may be `undefined` (comparisons
with `undefined` are false). -/
def jsLtOpt (v : Option Int) (m : Int) : Bool :=
  match v with
  | some x => x < m
  | none => false

/-- Dynamic access `abilityScores[ability]` for the six ability keys; any
other key reads as JavaScript `undefined` (`none`). -/
def abilityScoreOf (s : AbilityScores) (ability : String) : Option Int :=
  if ability = "strength" then some s.strength
  else if ability = "dexterity" then some s.dexterity
  else if ability = "constitution" then some s.constitution
  else if ability = "intelligence" then some s.intelligence
  else if ability = "wisdom" then some s.wisdom
  else if ability = "charisma" then some s.charisma
  else none

/-- The entries of `Object.entries(character.abilityScores)`, in declaration
order. -/
def abilityEntries (s : AbilityScores) : List (String × Int) :=
  [("strength", s.strength), ("dexterity", s.dexterity),
   ("constitution", s.constitution), ("intelligence", s.intelligence),
   ("wisdom", s.wisdom), ("charisma", s.charisma)]

namespace MulticlassSystem

/-- The `multiclassPrerequisites` table of `MulticlassSystem`. -/
def multiclassPrerequisites : List (String × List (String × Int)) :=
  [("Paladin", [("strength", 13), ("charisma", 13)]),
   ("Wizard", [("intelligence", 13)]),
   ("Rogue", [("dexterity", 13)]),
   ("Fighter", [("strength", 13), ("dexterity", 13)])]

/-- The eligibility check `MulticlassSystem.canMulticlass`. -/
def canMulticlass (c : Character) (targetClass : String) : Bool :=
  if c.«class» = targetClass then false
  else
    match multiclassPrerequisites.lookup targetClass with
    | none => true
    | some prerequisites =>
        prerequisites.all fun (ability, minScore) =>
          match abilityScoreOf c.abilityScores ability with
          | some v => minScore ≤ v
          | none => false

/-- The `hitDiceByClass` table of `calculateMulticlassHitPoints`. -/
def hitDiceByClass : List (String × Int) :=
  [("Barbarian", 12), ("Fighter", 10), ("Paladin", 10), ("Ranger", 10),
   ("Wizard", 6), ("Rogue", 8), ("Cleric", 8), ("Druid", 8)]

/-- The hit-point gain `MulticlassSystem.calculateMulticlassHitPoints`:
`Math.max(1, Math.floor(baseHitDice / 2) + constitutionModifier)` with the
hit-die table defaulting to 8. -/
def calculateMulticlassHitPoints (c : Character) (newClass : String) : Int :=
  let constitutionModifier := (c.abilityScores.constitution - 10) / 2
  let baseHitDice := (hitDiceByClass.lookup newClass).getD 8
  max 1 (baseHitDice / 2 + constitutionModifier)

/-- Modelled from the spec: `MulticlassSystem.validateMulticlassing` is called
by the validation pipeline but its definition is not under `src/` (only
`canMulticlass`, `calculateMulticlassHitPoints` and `performMulticlass` are).
Spec section 4 step 4 says the pipeline delegates the eligibility of each
multiclass entry to the multiclass engine and appends any returned errors; the
error text follows the engine's own failure message
`Cannot multiclass into <class>` (from `performMulticlass`). -/
def validateMulticlassing (c : Character) (targetClass : String) : DelegateResult :=
  if canMulticlass c targetClass then { isValid := true, errors := [] }
  else { isValid := false, errors := ["Cannot multiclass into " ++ targetClass] }

end MulticlassSystem

namespace SpellSystem

/-- The per-class spell-learning rules (`SpellLearningRules`). -/
structure SpellClassRules where
  maxSpellsPerLevel : Nat
  spellLearningLevels : List Int
  spellListByLevel : List (Int × List Spell)
deriving DecidableEq, Repr

/-- The `spellLearningRules` table of `SpellSystem`. -/
def spellLearningRules : List (String × SpellClassRules) :=
  [("Wizard",
    { maxSpellsPerLevel := 6,
      spellLearningLevels := [1, 2, 4, 8, 12, 16, 19],
      spellListByLevel :=
        [(1, [{ name := "Magic Missile", level := 1, school := some "Evocation" },
              { name := "Shield", level := 1, school := some "Abjuration" },
              { name := "Mage Armor", level := 1, school := some "Abjuration" }]),
         (2, [{ name := "Misty Step", level := 2, school := some "Conjuration" },
              { name := "Scorching Ray", level := 2, school := some "Evocation" }])] }),
   ("Cleric",
    { maxSpellsPerLevel := 5,
      spellLearningLevels := [1, 3, 5, 7, 9, 11, 13, 15, 17, 19],
      spellListByLevel :=
        [(1, [{ name := "Cure Wounds", level := 1, school := some "Healing" },
              { name := "Bless", level := 1, school := some "Support" }]),
         (2, [{ name := "Spiritual Weapon", level := 2, school := some "Evocation" }])] })]

/-- The spell acquisition step `SpellSystem.getNewSpellsForLevel`: empty when
the class has no rules or the level is not a spell-learning level; otherwise
the list keyed by `Math.floor(level / 2)` (missing key reads as `[]`), cut to
`maxSpellsPerLevel` by `slice(0, max)`. -/
def getNewSpellsForLevel (c : Character) : List Spell :=
  match spellLearningRules.lookup c.«class» with
  | none => []
  | some classRules =>
      if classRules.spellLearningLevels.contains c.level then
        let availableSpellLevel := c.level / 2
        let newSpells := (classRules.spellListByLevel.lookup availableSpellLevel).getD []
        newSpells.take classRules.maxSpellsPerLevel
      else []

/-- The daily preparation `SpellSystem.prepareDailySpells`.  The source
computes `Math.max(1, character.level / 2 + wisdomModifier)` in JavaScript
real arithmetic (`level / 2` is an exact half) and `slice` truncates that
count; the truncation of `max(1, level/2 + m)` is `max(1, (level + 2*m) / 2)`
in `Int` (floor division). -/
def prepareDailySpells (c : Character) : List Spell :=
  let wisdomModifier := (c.abilityScores.wisdom - 10) / 2
  let preparableSpells := max 1 ((c.level + 2 * wisdomModifier) / 2)
  (c.spells.take preparableSpells.toNat).map fun s => { s with prepared := true }

end SpellSystem

/-- The concrete level-2 Wizard used by the C6 witness. -/
def mageChar : Character :=
  { id := "c2", name := "Mage", race := "Elf", «class» := "Wizard",
    level := 2, experience := 600,
    abilityScores := { strength := 8, dexterity := 13, constitution := 10,
                       intelligence := 15, wisdom := 10, charisma := 10 },
    hitPoints := 12, armorClass := 12 }

/-- The Wizard row of the spell-learning table, spelled out for the C6
witness. -/
def wizardRules : SpellSystem.SpellClassRules :=
  { maxSpellsPerLevel := 6,
    spellLearningLevels := [1, 2, 4, 8, 12, 16, 19],
    spellListByLevel :=
      [(1, [{ name := "Magic Missile", level := 1, school := some "Evocation" },
            { name := "Shield", level := 1, school := some "Abjuration" },
            { name := "Mage Armor", level := 1, school := some "Abjuration" }]),
       (2, [{ name := "Misty Step", level := 2, school := some "Conjuration" },
            { name := "Scorching Ray", level := 2, school := some "Evocation" }])] }

namespace CharacterValidationSystem

/-- The fixed race list of `validateBasicInfo`. -/
def validRaces : List String := ["Human", "Elf", "Dwarf", "Halfling", "Gnome"]

/-- The fixed class list of `validateBasicInfo`. -/
def validClasses : List String :=
  ["Fighter", "Wizard", "Rogue", "Cleric", "Barbarian", "Ranger", "Paladin",
   "Druid", "Monk", "Warlock"]

/-- The basic-information check: name length, race and class membership, level
bounds.  Returns the pushed `(errors, warnings)`. -/
def validateBasicInfo (c : Character) : List String × List String :=
  (condMsg ((jsTrim c.name).length < 2) "Character name must be at least 2 characters long" ++
   condMsg (!validRaces.contains c.race)
     ("Invalid race. Must be one of: " ++ String.intercalate ", " validRaces) ++
   condMsg (!validClasses.contains c.«class»)
     ("Invalid class. Must be one of: " ++ String.intercalate ", " validClasses) ++
   condMsg (c.level < 1) "Character level must be at least 1" ++
   condMsg (c.level > 20) "Character level cannot exceed 20",
   condMsg (c.name ≠ "" && c.name.length > 50) "Character name is unusually long" ++
   condMsg (c.level > 10) "High-level character detected")

/-- The out-of-range message for one ability score. -/
def rangeError (ability : String) : String :=
  capitalize ability ++ " score must be between 3 and 20"

/-- One row of the `racialAbilityRestrictions` table.  The source checks only
`minTotalScore`, `maxTotalScore` and `minDexterity`; the remaining keys are in
the table but never read. -/
structure RacialRestrictions where
  minTotalScore : Option Int := none
  maxTotalScore : Option Int := none
  balancedScores : Option Bool := none
  minDexterity : Option Int := none
  maxIntelligence : Option Int := none
  minConstitution : Option Int := none
  maxStrength : Option Int := none
deriving DecidableEq, Repr

/-- The `racialAbilityRestrictions` table of `validateAbilityScores`. -/
def racialAbilityRestrictions : List (String × RacialRestrictions) :=
  [("Human", { minTotalScore := some 60, maxTotalScore := some 80,
               balancedScores := some true }),
   ("Elf", { minDexterity := some 12, maxIntelligence := some 18 }),
   ("Dwarf", { minConstitution := some 12, maxStrength := some 18 })]

/-- The out-of-range errors for the six ability scores (the `forEach` with a
conditional push). -/
def abilityRangeErrors (c : Character) : List String :=
  (abilityEntries c.abilityScores).flatMap fun (ability, score) =>
    condMsg (score < 3 || score > 20) (rangeError ability)

/-- The race-specific minimum-dexterity error of `validateAbilityScores`. -/
def racialDexterityError (c : Character) : List String :=
  match racialAbilityRestrictions.lookup c.race with
  | none => []
  | some raceRestrictions =>
      match raceRestrictions.minDexterity with
      | some m => condMsg (c.abilityScores.dexterity < m)
          ("Dexterity must be at least " ++ (toString m ++ (" for " ++ c.race)))
      | none => []

/-- The race-specific total-score warnings of `validateAbilityScores`. -/
def racialTotalWarnings (c : Character) : List String :=
  match racialAbilityRestrictions.lookup c.race with
  | none => []
  | some raceRestrictions =>
      (match raceRestrictions.minTotalScore with
       | some m => condMsg (((abilityEntries c.abilityScores).map Prod.snd).sum < m)
           ("Total ability scores are low for " ++ c.race)
       | none => []) ++
      (match raceRestrictions.maxTotalScore with
       | some m => condMsg (((abilityEntries c.abilityScores).map Prod.snd).sum > m)
           ("Total ability scores are high for " ++ c.race)
       | none => [])

/-- The ability-score check: each of the six scores must lie in `[3, 20]`,
plus the race-specific total-score warnings and the minimum-dexterity error. -/
def validateAbilityScores (c : Character) : List String × List String :=
  (abilityRangeErrors c ++ racialDexterityError c, racialTotalWarnings c)

/-- The `classRequirements` table of `validateClassRequirements`, each row in
the key order of the source object (so the error order matches). -/
def classRequirements : List (String × List (String × Int)) :=
  [("Fighter", [("strength", 13), ("constitution", 12)]),
   ("Wizard", [("intelligence", 14), ("dexterity", 10)]),
   ("Rogue", [("dexterity", 13), ("intelligence", 10)]),
   ("Cleric", [("wisdom", 13), ("constitution", 10)])]

/-- The class-requirement check: one error per unmet per-class ability
minimum. -/
def validateClassRequirements (c : Character) : List String × List String :=
  match classRequirements.lookup c.«class» with
  | none => ([], [])
  | some requirements =>
      (requirements.flatMap fun (ability, minScore) =>
        condMsg (jsLtOpt (abilityScoreOf c.abilityScores ability) minScore)
          (capitalize ability ++ (" must be at least " ++
            (toString minScore ++ (" for " ++ c.«class»)))), [])

/-- The multiclass check: delegate each entry to
`MulticlassSystem.validateMulticlassing`, then check the combined level
`(multiclass levels summed) + character.level`. -/
def validateMulticlassing (c : Character) : List String × List String :=
  match c.multiclass with
  | none => ([], [])
  | some entries =>
      if entries.isEmpty then ([], [])
      else
        ((entries.flatMap fun mc =>
            if (MulticlassSystem.validateMulticlassing c mc.«class»).isValid then []
            else (MulticlassSystem.validateMulticlassing c mc.«class»).errors) ++
         condMsg ((entries.map (·.level)).sum + c.level > 20)
           "Total character levels cannot exceed 20",
         condMsg ((entries.map (·.level)).sum + c.level > 15)
           "High total character levels detected")

/-- Modelled from the spec: `CharacterArchetypeSystem.validateArchetypeSelection`
is called by the pipeline but is not under `src/`.  Spec section 4 step 5 says a
selected archetype must be legal for the character's class; we model legality
as membership in a per-class table of archetypes. -/
def archetypesByClass : List (String × List String) :=
  [("Fighter", ["Champion", "Battle Master"]),
   ("Wizard", ["Evocation", "Abjuration"]),
   ("Rogue", ["Thief", "Assassin"]),
   ("Cleric", ["Life Domain", "War Domain"])]

/-- Modelled from the spec: the delegated archetype validation.  It succeeds
exactly when the selected archetype is legal for the character's class. -/
def validateArchetypeSelection (c : Character) (archetype : Option String) : DelegateResult :=
  match archetype with
  | some a =>
      if ((archetypesByClass.lookup c.«class»).getD []).contains a then
        { isValid := true, errors := [] }
      else { isValid := false, errors := ["Archetype not available for this class"] }
  | none => { isValid := false, errors := ["Archetype not available for this class"] }

/-- The archetype check: delegate when `archetypeFeatures` is present (its
first element is the selection), else warn. -/
def validateArchetype (c : Character) : List String × List String :=
  match c.archetypeFeatures with
  | some features =>
      (if (validateArchetypeSelection c features.head?).isValid then []
       else (validateArchetypeSelection c features.head?).errors, [])
  | none => ([], ["No archetype selected for " ++ c.«class»])

/-- The nine canonical alignment names of `validateAlignment`. -/
def validAlignments : List String :=
  ["Lawful Good", "Neutral Good", "Chaotic Good",
   "Lawful Neutral", "True Neutral", "Chaotic Neutral",
   "Lawful Evil", "Neutral Evil", "Chaotic Evil"]

/-- Modelled from the spec: the `alignmentDefinitions` table of
`AlignmentSystem` (not under `src/`), mapping each of the nine canonical names
to its `{moral, ethical}` pair. -/
def alignmentDefinitions : List (String × AlignmentPair) :=
  [("Lawful Good", { moral := "Good", ethical := "Lawful" }),
   ("Neutral Good", { moral := "Good", ethical := "Neutral" }),
   ("Chaotic Good", { moral := "Good", ethical := "Chaotic" }),
   ("Lawful Neutral", { moral := "Neutral", ethical := "Lawful" }),
   ("True Neutral", { moral := "Neutral", ethical := "Neutral" }),
   ("Chaotic Neutral", { moral := "Neutral", ethical := "Chaotic" }),
   ("Lawful Evil", { moral := "Evil", ethical := "Lawful" }),
   ("Neutral Evil", { moral := "Evil", ethical := "Neutral" }),
   ("Chaotic Evil", { moral := "Evil", ethical := "Chaotic" })]

/-- The alignment check: a present alignment must match one of the nine
canonical pairs; absence is a warning. -/
def validateAlignment (c : Character) : List String × List String :=
  match c.alignment with
  | none => ([], ["No alignment specified"])
  | some al =>
      match ((alignmentDefinitions.find? fun (_, d) =>
          d.moral == al.moral && d.ethical == al.ethical).map Prod.fst) with
      | none => (["Invalid character alignment"], [])
      | some nm =>
          (condMsg (!validAlignments.contains nm) "Invalid character alignment", [])

/-- The per-skill range errors of `validateSkills` (the `forEach` with a
conditional push). -/
def skillLevelErrors (skills : List (String × Int)) : List String :=
  skills.flatMap fun (skill, lvl) =>
    condMsg (lvl < 0 || lvl > 20) ("Skill " ++ (skill ++ " level must be between 0 and 20"))

/-- The skills check: each skill level in `[0, 20]`, total within the
`level * 2` budget (warning above 80% of the budget, in exact arithmetic
`5 * total > 4 * budget`). -/
def validateSkills (c : Character) : List String × List String :=
  match c.skills with
  | none => ([], [])
  | some skills =>
      (skillLevelErrors skills ++
        condMsg ((skills.map Prod.snd).sum > c.level * 2)
          ("Total skill points (" ++ (toString (skills.map Prod.snd).sum ++
            (") cannot exceed " ++ toString (c.level * 2)))),
       condMsg (5 * (skills.map Prod.snd).sum > 4 * (c.level * 2))
         "Skill points are near maximum allocation")

/-- The duplicate-id scan of `validateInventory` (a `Set` of seen ids, one
error per item whose id was already seen). -/
def duplicateItemErrors (seen : List String) : List InventoryItem → List String
  | [] => []
  | item :: rest =>
      condMsg (seen.contains item.id) ("Duplicate item found: " ++ item.name) ++
      duplicateItemErrors (item.id :: seen) rest

/-- The total inventory weight `reduce((sum, item) => sum + (item.weight || 0), 0)`. -/
def totalInventoryWeight (c : Character) : Int :=
  (c.inventory.map fun item => item.weight.getD 0).sum

/-- The inventory check: total weight within `15 * strength` (warning above
80% of capacity, in exact arithmetic `5 * total > 4 * capacity`), plus the
duplicate-id scan. -/
def validateInventory (c : Character) : List String × List String :=
  (condMsg (totalInventoryWeight c > 15 * c.abilityScores.strength)
     ("Inventory weight (" ++ (toString (totalInventoryWeight c) ++
       (") exceeds carrying capacity of " ++ toString (15 * c.abilityScores.strength)))) ++
   duplicateItemErrors [] c.inventory,
   condMsg (5 * totalInventoryWeight c > 4 * (15 * c.abilityScores.strength))
     "Inventory is near maximum carrying capacity")

/-- The backstory/traits check (warnings only). -/
def validateBackstory (c : Character) : List String × List String :=
  let backstoryWarnings := match c.backstory with
    | some b =>
        if b.isEmpty then ["No backstory provided"]
        else condMsg (b.length > 1000) "Backstory is unusually long"
    | none => ["No backstory provided"]
  let traitEntries := match c.traits with
    | none => []
    | some t => [("personality", t.personality), ("ideals", t.ideals),
                 ("bonds", t.bonds), ("flaws", t.flaws)]
  let traitWarnings := traitEntries.flatMap fun (traitType, traitList) =>
    condMsg traitList.isEmpty ("No " ++ (traitType ++ " traits specified")) ++
    condMsg (traitList.length > 3) ("Excessive number of " ++ (traitType ++ " traits"))
  ([], backstoryWarnings ++ traitWarnings)

/-- The errors pushed by the nine checks of the `validateCharacter` pipeline,
in order. -/
def pipelineErrors (c : Character) : List String :=
  (validateBasicInfo c).1 ++ (validateAbilityScores c).1 ++
  (validateClassRequirements c).1 ++ (validateMulticlassing c).1 ++
  (validateArchetype c).1 ++ (validateAlignment c).1 ++
  (validateSkills c).1 ++ (validateInventory c).1 ++ (validateBackstory c).1

/-- The warnings pushed by the nine checks, in pipeline order. -/
def pipelineWarnings (c : Character) : List String :=
  (validateBasicInfo c).2 ++ (validateAbilityScores c).2 ++
  (validateClassRequirements c).2 ++ (validateMulticlassing c).2 ++
  (validateArchetype c).2 ++ (validateAlignment c).2 ++
  (validateSkills c).2 ++ (validateInventory c).2 ++ (validateBackstory c).2

/-- The aggregated result: `isValid` holds iff the error list stayed empty. -/
def validateCharacter (c : Character) : ValidationResult :=
  { isValid := (pipelineErrors c).isEmpty,
    errors := pipelineErrors c,
    warnings := pipelineWarnings c }

end CharacterValidationSystem

/-- The six ability-score keys, in declaration order. -/
def abilityNames : List String :=
  ["strength", "dexterity", "constitution", "intelligence", "wisdom", "charisma"]

/-- The proposition that a message names `name` somewhere inside it. -/
def mentions (msg name : String) : Prop :=
  ∃ pre post, msg = pre ++ (name ++ post)

/-- A Fighter whose strength 12 is inside `[3, 20]` but below the Fighter
class minimum of 13. -/
def fighterLowStr : Character :=
  { id := "c3", name := "Bruno", race := "Human", «class» := "Fighter",
    level := 5, experience := 1500,
    abilityScores := { strength := 12, dexterity := 13, constitution := 12,
                       intelligence := 10, wisdom := 10, charisma := 10 },
    hitPoints := 40, armorClass := 15 }

/-- A Wizard with an out-of-range strength and an in-range dexterity, for the
C3 witness. -/
def skewedWizard : Character :=
  { id := "c4", name := "Vex", race := "Elf", «class» := "Wizard",
    level := 4, experience := 1200,
    abilityScores := { strength := 25, dexterity := 13, constitution := 10,
                       intelligence := 15, wisdom := 10, charisma := 10 },
    hitPoints := 20, armorClass := 12 }

/-- A level-12 Paladin with two multiclass entries totalling 9 levels, for a
combined level of 21. -/
def overLeveled : Character :=
  { id := "c5", name := "Gale", race := "Human", «class» := "Paladin",
    level := 12, experience := 3600,
    abilityScores := { strength := 13, dexterity := 13, constitution := 12,
                       intelligence := 10, wisdom := 10, charisma := 13 },
    hitPoints := 80, armorClass := 18,
    multiclass := some [{ «class» := "Fighter", level := 5 },
                        { «class» := "Rogue", level := 4 }] }

/-- The same character with the second entry at 3 levels, for a combined
level of exactly 20. -/
def exactlyTwenty : Character :=
  { overLeveled with
    multiclass := some [{ «class» := "Fighter", level := 5 },
                        { «class» := "Rogue", level := 3 }] }

/-- A Fighter with one multiclass entry whose prerequisites (Wizard needs
intelligence 13) are not met. -/
def multiclassIneligible : Character :=
  { id := "c6", name := "Rurik", race := "Dwarf", «class» := "Fighter",
    level := 6, experience := 1800,
    abilityScores := { strength := 14, dexterity := 13, constitution := 14,
                       intelligence := 10, wisdom := 10, charisma := 10 },
    hitPoints := 52, armorClass := 17,
    multiclass := some [{ «class» := "Wizard", level := 2 }] }

/-- A Barbarian sitting exactly at 80% of both the skill budget (8 of 10) and
the carrying capacity (120 of 150). -/
def exactlyEightyPercent : Character :=
  { id := "c7", name := "Und", race := "Human", «class» := "Barbarian",
    level := 5, experience := 1500,
    abilityScores := { strength := 10, dexterity := 13, constitution := 12,
                       intelligence := 10, wisdom := 10, charisma := 10 },
    hitPoints := 50, armorClass := 14,
    inventory := [{ id := "i1", name := "Rock", weight := some 120 }],
    skills := some [("athletics", 8)] }

/-- The same Barbarian strictly above 80% of both budgets (9 of 10 skill
points, 121 of 150 weight). -/
def aboveEightyPercent : Character :=
  { exactlyEightyPercent with
    inventory := [{ id := "i1", name := "Rock", weight := some 121 }],
    skills := some [("athletics", 9)] }

/-- The metadata block of an export envelope. -/
structure ExportMetadata where
  validationResult : ValidationResult
  exportVersion : String
deriving DecidableEq, Repr

/-- The export envelope `ExportFormat`.  The `character` field is the
sanitised partial character: its stripped `id`/`status`/`campaignId` are
encoded as `""`/`none`/`none`. -/
structure ExportFormat where
  version : String
  exportId : String
  timestamp : Int
  character : Character
  metadata : ExportMetadata
deriving DecidableEq, Repr

/-- The result of `exportCharacter`: `{success, data?, errors?}`. -/
structure ExportResult where
  success : Bool
  data : Option ExportFormat := none
  errors : Option (List String) := none
deriving DecidableEq, Repr

/-- The result of `importCharacter`: `{success, character?, errors?}`. -/
structure ImportResult where
  success : Bool
  character : Option Character := none
  errors : Option (List String) := none
deriving DecidableEq, Repr

namespace CharacterExportSystem

/-- The sanitisation step: strip `id`, `status` and `campaignId` and stamp
`exportedAt` with the current time. -/
def sanitizeCharacterData (now : Int) (character : Character) : Character :=
  { character with id := "", status := none, campaignId := none, exportedAt := some now }

/-- The export operation: validation-gated; on success wraps the sanitised
character in a version-1.1.0 envelope.  `now` stands for `Date.now()` and
`exportId` for the generated uuid. -/
def exportCharacter (now : Int) (exportId : String) (character : Character) : ExportResult :=
  if !(CharacterValidationSystem.validateCharacter character).isValid then
    { success := false,
      errors := some (CharacterValidationSystem.validateCharacter character).errors }
  else
    { success := true,
      data := some
        { version := "1.1.0", exportId := exportId, timestamp := now,
          character := sanitizeCharacterData now character,
          metadata :=
            { validationResult := CharacterValidationSystem.validateCharacter character,
              exportVersion := "1.1.0" } } }

/-- One year in milliseconds, the import age limit. -/
def MAX_EXPORT_AGE : Int := 365 * 24 * 60 * 60 * 1000

/-- The import operation: version check, age check, fresh id, re-validation.
`now` stands for `Date.now()` and `newId` for the generated uuid. -/
def importCharacter (now : Int) (newId : String) (exportData : ExportFormat) : ImportResult :=
  if exportData.version ≠ "1.1.0" then
    { success := false, errors := some ["Incompatible export version"] }
  else if now - exportData.timestamp > MAX_EXPORT_AGE then
    { success := false, errors := some ["Export data is too old"] }
  else if !(CharacterValidationSystem.validateCharacter
      { exportData.character with id := newId }).isValid then
    { success := false,
      errors := some (CharacterValidationSystem.validateCharacter
        { exportData.character with id := newId }).errors }
  else
    { success := true, character := some { exportData.character with id := newId } }

end CharacterExportSystem

/-- A fully valid Fighter carrying a status and a campaign reference. -/
def goodChar : Character :=
  { id := "c1", name := "Hero", race := "Human", «class» := "Fighter",
    level := 5, experience := 1500, status := some "Active",
    abilityScores := { strength := 13, dexterity := 13, constitution := 12,
                       intelligence := 10, wisdom := 10, charisma := 10 },
    hitPoints := 40, armorClass := 15, campaignId := some "camp1" }

/-- The round trip of the valid Fighter at time 0, as an `Option`. -/
def roundtrippedGoodChar : Option Character :=
  (CharacterExportSystem.exportCharacter 0 "e1" goodChar).data.bind
    fun d => (CharacterExportSystem.importCharacter 0 "n1" d).character

/-- A version-0.9.0 envelope used in the C2 witness. -/
def badVersionEnvelope : ExportFormat :=
  { version := "0.9.0", exportId := "e2", timestamp := 0,
    character := CharacterExportSystem.sanitizeCharacterData 0 goodChar,
    metadata := { validationResult := { isValid := true, errors := [], warnings := [] },
                  exportVersion := "0.9.0" } }

/-- A well-versioned envelope with timestamp 0 used stale in the C2 witness. -/
def staleEnvelope : ExportFormat :=
  { version := "1.1.0", exportId := "e3", timestamp := 0,
    character := CharacterExportSystem.sanitizeCharacterData 0 goodChar,
    metadata := { validationResult := { isValid := true, errors := [], warnings := [] },
                  exportVersion := "1.1.0" } }

namespace CharacterManager

/-- The store upsert `saveCharacter`: replace the first character with the
same id, or push at the end. -/
def saveCharacter : List Character → Character → List Character
  | [], c => [c]
  | x :: xs, c => if x.id = c.id then c :: xs else x :: saveCharacter xs c

/-- The store read `getCharacterById`. -/
def getCharacterById (store : List Character) (characterId : String) : Option Character :=
  store.find? fun character => character.id == characterId

/-- The partial background input of `updateCharacterBackground`. -/
structure BackstoryData where
  backstory : Option String := none
  personality : Option (List String) := none
  ideals : Option (List String) := none
  bonds : Option (List String) := none
  flaws : Option (List String) := none
deriving DecidableEq, Repr

/-- The JavaScript merge `backstoryData.backstory || character.backstory`: a
missing or empty (falsy) new value keeps the old one. -/
def jsOrBackstory (newVal : Option String) (old : Option String) : Option String :=
  match newVal with
  | some s => if s = "" then old else some s
  | none => old

/-- The background update: fails when the id is absent; crashes (modelled as
an error) when the stored character has no `traits` record, because the
source reads `character.traits.personality` unguarded; otherwise merges the
supplied fields over the stored character, persists and returns it. -/
def updateCharacterBackground (store : List Character) (characterId : String)
    (backstoryData : BackstoryData) : Except String (Character × List Character) :=
  match getCharacterById store characterId with
  | none => .error "Character not found"
  | some character =>
      match character.traits with
      | none => .error "TypeError: character.traits is undefined"
      | some t =>
          .ok ({ character with
                  backstory := jsOrBackstory backstoryData.backstory character.backstory,
                  traits := some
                    { personality := backstoryData.personality.getD t.personality,
                      ideals := backstoryData.ideals.getD t.ideals,
                      bonds := backstoryData.bonds.getD t.bonds,
                      flaws := backstoryData.flaws.getD t.flaws } },
               saveCharacter store
                 { character with
                    backstory := jsOrBackstory backstoryData.backstory character.backstory,
                    traits := some
                      { personality := backstoryData.personality.getD t.personality,
                        ideals := backstoryData.ideals.getD t.ideals,
                        bonds := backstoryData.bonds.getD t.bonds,
                        flaws := backstoryData.flaws.getD t.flaws } })

end CharacterManager

/-- A stored character with a backstory and a traits record. -/
def storedHero : Character :=
  { goodChar with
    id := "c8", backstory := some "An old tale",
    traits := some { personality := ["bold"], ideals := [], bonds := [], flaws := [] } }

/-- Claim C4 — `calculateMulticlassHitPoints(character, newClass)` equals
`max(1, floor(hitDie(newClass)/2) + floor((constitution-10)/2))` with `hitDie`
the per-class table lookup defaulting to 8; it is at least 1 for every input,
and for Fighter (hit die 10) with constitution 14 it equals 7.  (It is
deterministic because it is a function of its two arguments.) -/
theorem calculateMulticlassHitPoints_spec (c : Character) (newClass : String) :
    MulticlassSystem.calculateMulticlassHitPoints c newClass =
      max 1 (⌊(((MulticlassSystem.hitDiceByClass.lookup newClass).getD 8 : ℚ)) / 2⌋ +
             ⌊((c.abilityScores.constitution : ℚ) - 10) / 2⌋) ∧
    1 ≤ MulticlassSystem.calculateMulticlassHitPoints c newClass ∧
    (c.abilityScores.constitution = 14 →
      MulticlassSystem.calculateMulticlassHitPoints c "Fighter" = 7) := by
  refine ⟨?_, ?_, ?_⟩
  · have h1 : (((MulticlassSystem.hitDiceByClass.lookup newClass).getD 8 : ℤ) : ℚ) / 2 =
        (((MulticlassSystem.hitDiceByClass.lookup newClass).getD 8 : ℤ) : ℚ) / ((2 : ℕ) : ℚ) := by
      norm_num
    have h2 : ((c.abilityScores.constitution : ℚ) - 10) / 2 =
        (((c.abilityScores.constitution - 10 : ℤ) : ℚ)) / ((2 : ℕ) : ℚ) := by
      push_cast
      ring
    rw [h1, h2, Rat.floor_intCast_div_natCast, Rat.floor_intCast_div_natCast]
    rfl
  · exact le_max_left 1 _
  · intro h
    simp [MulticlassSystem.calculateMulticlassHitPoints, h]
    rfl

/-- Witness for C4: at constitution 14 the hypothesis of the third conjunct is
discharged and the Fighter hit-point gain evaluates to 7. -/
theorem calculateMulticlassHitPoints_spec_witness :
    MulticlassSystem.calculateMulticlassHitPoints
      { id := "c1", name := "Hero", race := "Human", «class» := "Wizard",
        level := 5, experience := 1500,
        abilityScores := { strength := 13, dexterity := 13, constitution := 14,
                           intelligence := 10, wisdom := 10, charisma := 10 },
        hitPoints := 40, armorClass := 15 } "Fighter" = 7 :=
  (calculateMulticlassHitPoints_spec
    { id := "c1", name := "Hero", race := "Human", «class» := "Wizard",
      level := 5, experience := 1500,
      abilityScores := { strength := 13, dexterity := 13, constitution := 14,
                         intelligence := 10, wisdom := 10, charisma := 10 },
      hitPoints := 40, armorClass := 15 } "Fighter").2.2 rfl

/-- Claim C6 — `getNewSpellsForLevel` returns `[]` when the class has no
spell-learning table entry or the level is not one of the class's
spell-learning levels; otherwise it is the spell list keyed by
`floor(level/2)` in the class's `spellListByLevel` table, truncated to the
class's `maxSpellsPerLevel` cap. -/
theorem getNewSpellsForLevel_spec (c : Character) :
    (SpellSystem.spellLearningRules.lookup c.«class» = none →
      SpellSystem.getNewSpellsForLevel c = []) ∧
    (∀ classRules, SpellSystem.spellLearningRules.lookup c.«class» = some classRules →
      (c.level ∉ classRules.spellLearningLevels →
        SpellSystem.getNewSpellsForLevel c = []) ∧
      (c.level ∈ classRules.spellLearningLevels →
        SpellSystem.getNewSpellsForLevel c =
          ((classRules.spellListByLevel.lookup ⌊(c.level : ℚ) / 2⌋).getD []).take
            classRules.maxSpellsPerLevel)) := by
  have hfloor : ⌊(c.level : ℚ) / 2⌋ = c.level / 2 := by
    have h : ((c.level : ℤ) : ℚ) / 2 = ((c.level : ℤ) : ℚ) / ((2 : ℕ) : ℚ) := by norm_num
    rw [h, Rat.floor_intCast_div_natCast]
    norm_num
  refine ⟨?_, ?_⟩
  · intro h
    unfold SpellSystem.getNewSpellsForLevel
    rw [h]
  · intro classRules h
    constructor
    · intro hnot
      unfold SpellSystem.getNewSpellsForLevel
      rw [h]
      simp [List.contains, List.elem_iff, hnot]
    · intro hmem
      unfold SpellSystem.getNewSpellsForLevel
      rw [h, hfloor]
      simp [List.contains, List.elem_iff, hmem]

/-- Witness for C6: a level-2 Wizard has a table entry and level 2 is a
learning level, so the spells keyed by `floor(2/2) = 1` are returned. -/
theorem getNewSpellsForLevel_spec_witness :
    SpellSystem.getNewSpellsForLevel mageChar =
      [{ name := "Magic Missile", level := 1, school := some "Evocation" },
       { name := "Shield", level := 1, school := some "Abjuration" },
       { name := "Mage Armor", level := 1, school := some "Abjuration" }] := by
  have h := ((getNewSpellsForLevel_spec mageChar).2 wizardRules (by decide)).2 (by decide)
  have hl : ((mageChar.level : ℤ) : ℚ) = 2 := by norm_num [mageChar]
  rw [hl, show ⌊(2 : ℚ) / 2⌋ = (1 : ℤ) from by norm_num] at h
  rw [h]
  decide

/-- Claim C7 — `prepareDailySpells` returns the first N spells of the
character's list in learn order, each marked prepared, where
`N = max(1, floor(level/2) + floor((wisdom-10)/2))`.  The character value is
not mutated: the embedding is a pure function of the character, mirroring the
source, which builds fresh spell objects with `map` and never assigns to
`character.spells`. -/
theorem prepareDailySpells_spec (c : Character) :
    SpellSystem.prepareDailySpells c =
      (c.spells.take
          (max 1 (⌊(c.level : ℚ) / 2⌋ +
                  ⌊((c.abilityScores.wisdom : ℚ) - 10) / 2⌋)).toNat).map
        (fun s => { s with prepared := true }) := by
  have h1 : ⌊(c.level : ℚ) / 2⌋ = c.level / 2 := by
    have h : ((c.level : ℤ) : ℚ) / 2 = ((c.level : ℤ) : ℚ) / ((2 : ℕ) : ℚ) := by norm_num
    rw [h, Rat.floor_intCast_div_natCast]
    norm_num
  have h2 : ⌊((c.abilityScores.wisdom : ℚ) - 10) / 2⌋ = (c.abilityScores.wisdom - 10) / 2 := by
    have h : ((c.abilityScores.wisdom : ℚ) - 10) / 2 =
        (((c.abilityScores.wisdom - 10 : ℤ)) : ℚ) / ((2 : ℕ) : ℚ) := by
      push_cast
      ring
    rw [h, Rat.floor_intCast_div_natCast]
    norm_num
  have h3 : (c.level + 2 * ((c.abilityScores.wisdom - 10) / 2)) / 2 =
      c.level / 2 + (c.abilityScores.wisdom - 10) / 2 := by
    rw [mul_comm]
    exact Int.add_mul_ediv_right c.level _ (by norm_num)
  unfold SpellSystem.prepareDailySpells
  simp only []
  rw [h3, h1, h2]

/-- Membership in a conditionally pushed message pins the message. -/
theorem mem_condMsg {e m : String} {b : Bool} (h : e ∈ condMsg b m) : b = true ∧ e = m := by
  unfold condMsg at h
  split at h
  · next hb => simp only [List.mem_singleton] at h; exact ⟨hb, h⟩
  · simp at h

/-- Two strings differing at some character position differ. -/
theorem ne_of_char_at {s t : String} (i : Nat) (h : s.data[i]? ≠ t.data[i]?) :
    s ≠ t :=
  fun e => h (by rw [e])

/-- A string starting with `p` differs from `t` whenever `p` and `t` already
differ at a position inside `p`. -/
theorem append_ne_of_char_at (p r t : String) (i : Nat) (hi : i < p.data.length)
    (h : p.data[i]? ≠ t.data[i]?) : p ++ r ≠ t := by
  apply ne_of_char_at i
  rw [String.data_append, List.getElem?_append_left hi]
  exact h

/-- If a list lookup finds a value, the key/value pair is in the list. -/
theorem lookup_mem {α β : Type} [BEq α] [LawfulBEq α] :
    ∀ {l : List (α × β)} {k : α} {v : β}, l.lookup k = some v → (k, v) ∈ l := by
  intro l
  induction l with
  | nil => intro k v h; simp [List.lookup] at h
  | cons head tail ih =>
      intro k v h
      rw [show head = (head.1, head.2) from rfl, List.lookup_cons] at h
      cases hk : (k == head.1)
      · simp only [hk] at h
        exact List.mem_cons_of_mem _ (ih h)
      · simp only [hk, Option.some.injEq] at h
        have hkey : k = head.1 := by simpa using hk
        subst hkey
        subst h
        exact List.mem_cons_self _ _

namespace CharacterValidationSystem

/-- Every error of the basic-information check is one of its five fixed
messages. -/
theorem validateBasicInfo_shape {c : Character} {e : String}
    (h : e ∈ (validateBasicInfo c).1) :
    e ∈ ["Character name must be at least 2 characters long",
         "Invalid race. Must be one of: " ++ String.intercalate ", " validRaces,
         "Invalid class. Must be one of: " ++ String.intercalate ", " validClasses,
         "Character level must be at least 1",
         "Character level cannot exceed 20"] := by
  unfold validateBasicInfo at h
  simp only [List.mem_append] at h
  rcases h with ((((h | h) | h) | h) | h) <;>
    rcases mem_condMsg h with ⟨-, rfl⟩ <;> simp

/-- Every error of the modelled archetype delegate is its single fixed
message. -/
theorem validateArchetypeSelection_shape {c : Character} {arch : Option String}
    {e : String} (h : e ∈ (validateArchetypeSelection c arch).errors) :
    e = "Archetype not available for this class" := by
  unfold validateArchetypeSelection at h
  split at h
  · split at h <;> simp_all
  · simp_all

/-- Every error of the archetype check is its single fixed message. -/
theorem validateArchetype_shape {c : Character} {e : String}
    (h : e ∈ (validateArchetype c).1) :
    e = "Archetype not available for this class" := by
  unfold validateArchetype at h
  split at h
  · split at h
    · simp at h
    · exact validateArchetypeSelection_shape h
  · simp at h

/-- Every error of the alignment check is its single fixed message. -/
theorem validateAlignment_shape {c : Character} {e : String}
    (h : e ∈ (validateAlignment c).1) :
    e = "Invalid character alignment" := by
  unfold validateAlignment at h
  split at h
  · simp at h
  · split at h
    · simp only [List.mem_singleton] at h
      exact h
    · exact (mem_condMsg h).2

/-- The backstory/traits check produces no errors at all. -/
theorem validateBackstory_errors (c : Character) : (validateBackstory c).1 = [] := rfl

/-- Every out-of-range ability error names an actually out-of-range entry. -/
theorem abilityRangeErrors_shape {c : Character} {e : String}
    (h : e ∈ abilityRangeErrors c) :
    ∃ p ∈ abilityEntries c.abilityScores, (p.2 < 3 ∨ p.2 > 20) ∧ e = rangeError p.1 := by
  unfold abilityRangeErrors at h
  rw [List.mem_flatMap] at h
  obtain ⟨⟨ability, score⟩, hmem, hcond⟩ := h
  obtain ⟨hb, rfl⟩ := mem_condMsg hcond
  refine ⟨(ability, score), hmem, ?_, rfl⟩
  simpa using hb

/-- Every racial dexterity error starts with the fixed prefix. -/
theorem racialDexterityError_shape {c : Character} {e : String}
    (h : e ∈ racialDexterityError c) :
    ∃ t, e = "Dexterity must be at least " ++ t := by
  unfold racialDexterityError at h
  split at h
  · simp at h
  · split at h
    · exact ⟨_, (mem_condMsg h).2⟩
    · simp at h

/-- Every class-requirement error is one of the eight messages that the
four-row table can produce. -/
theorem validateClassRequirements_shape {c : Character} {e : String}
    (h : e ∈ (validateClassRequirements c).1) :
    e ∈ ["Strength must be at least 13 for Fighter",
         "Constitution must be at least 12 for Fighter",
         "Intelligence must be at least 14 for Wizard",
         "Dexterity must be at least 10 for Wizard",
         "Dexterity must be at least 13 for Rogue",
         "Intelligence must be at least 10 for Rogue",
         "Wisdom must be at least 13 for Cleric",
         "Constitution must be at least 10 for Cleric"] := by
  unfold validateClassRequirements at h
  split at h
  · simp at h
  · next requirements hr =>
      have hmem := lookup_mem hr
      simp only [classRequirements, List.mem_cons, List.not_mem_nil, or_false] at hmem
      rcases hmem with hm | hm | hm | hm <;>
        · injection hm with hcls hreq
          subst hreq
          rw [hcls] at h
          rw [List.mem_flatMap] at h
          obtain ⟨⟨ability, minScore⟩, hmem2, hcond⟩ := h
          obtain ⟨-, rfl⟩ := mem_condMsg hcond
          simp only [List.mem_cons, List.not_mem_nil, or_false] at hmem2
          rcases hmem2 with hp | hp <;>
            · injection hp with h1 h2
              subst h1
              subst h2
              decide

/-- Every multiclass-check error is either a delegated eligibility message or
the total-level message, the latter only when the combined level exceeds 20. -/
theorem validateMulticlassing_shape {c : Character} {e : String}
    (h : e ∈ (validateMulticlassing c).1) :
    (∃ t, e = "Cannot multiclass into " ++ t) ∨
    (e = "Total character levels cannot exceed 20" ∧
      ∃ entries, c.multiclass = some entries ∧
        (entries.map (·.level)).sum + c.level > 20) := by
  unfold validateMulticlassing at h
  split at h
  · simp at h
  · next entries heq =>
      split at h
      · simp at h
      · rcases List.mem_append.mp h with h | h
        · rw [List.mem_flatMap] at h
          obtain ⟨mc, -, hcond⟩ := h
          split at hcond
          · simp at hcond
          · left
            unfold MulticlassSystem.validateMulticlassing at hcond
            split at hcond <;> simp_all
        · obtain ⟨hb, rfl⟩ := mem_condMsg h
          exact Or.inr ⟨rfl, entries, heq, by simpa using hb⟩

/-- Every per-skill error starts with the fixed prefix. -/
theorem skillLevelErrors_shape {skills : List (String × Int)} {e : String}
    (h : e ∈ skillLevelErrors skills) : ∃ t, e = "Skill " ++ t := by
  unfold skillLevelErrors at h
  rw [List.mem_flatMap] at h
  obtain ⟨⟨skill, lvl⟩, -, hcond⟩ := h
  exact ⟨_, (mem_condMsg hcond).2⟩

/-- Every skills-check error is a per-skill error or the budget error. -/
theorem validateSkills_shape {c : Character} {e : String}
    (h : e ∈ (validateSkills c).1) :
    (∃ t, e = "Skill " ++ t) ∨ (∃ t, e = "Total skill points (" ++ t) := by
  unfold validateSkills at h
  split at h
  · simp at h
  · rcases List.mem_append.mp h with h | h
    · exact Or.inl (skillLevelErrors_shape h)
    · exact Or.inr ⟨_, (mem_condMsg h).2⟩

/-- Every duplicate-scan error starts with the fixed prefix. -/
theorem duplicateItemErrors_shape {e : String} :
    ∀ {seen : List String} {items : List InventoryItem},
      e ∈ duplicateItemErrors seen items → ∃ t, e = "Duplicate item found: " ++ t := by
  intro seen items
  induction items generalizing seen with
  | nil => intro h; simp [duplicateItemErrors] at h
  | cons item rest ih =>
      intro h
      unfold duplicateItemErrors at h
      rcases List.mem_append.mp h with h | h
      · exact ⟨_, (mem_condMsg h).2⟩
      · exact ih h

/-- Every inventory-check error is the capacity error or a duplicate error. -/
theorem validateInventory_shape {c : Character} {e : String}
    (h : e ∈ (validateInventory c).1) :
    (∃ t, e = "Inventory weight (" ++ t) ∨ (∃ t, e = "Duplicate item found: " ++ t) := by
  unfold validateInventory at h
  rcases List.mem_append.mp h with h | h
  · exact Or.inl ⟨_, (mem_condMsg h).2⟩
  · exact Or.inr (duplicateItemErrors_shape h)

/-- The aggregated error list is the concatenation of the nine checks, in
pipeline order. -/
theorem validateCharacter_errors (c : Character) :
    (validateCharacter c).errors =
      (validateBasicInfo c).1 ++ (validateAbilityScores c).1 ++
      (validateClassRequirements c).1 ++ (validateMulticlassing c).1 ++
      (validateArchetype c).1 ++ (validateAlignment c).1 ++
      (validateSkills c).1 ++ (validateInventory c).1 ++ (validateBackstory c).1 := by
  rw [show (validateCharacter c).errors = pipelineErrors c from rfl]
  unfold pipelineErrors
  rfl

/-- The aggregated warning list is the concatenation of the nine checks, in
pipeline order. -/
theorem validateCharacter_warnings (c : Character) :
    (validateCharacter c).warnings =
      (validateBasicInfo c).2 ++ (validateAbilityScores c).2 ++
      (validateClassRequirements c).2 ++ (validateMulticlassing c).2 ++
      (validateArchetype c).2 ++ (validateAlignment c).2 ++
      (validateSkills c).2 ++ (validateInventory c).2 ++ (validateBackstory c).2 := by
  rw [show (validateCharacter c).warnings = pipelineWarnings c from rfl]
  unfold pipelineWarnings
  rfl

/-- The validity flag is set from the aggregated error list. -/
theorem validateCharacter_isValid (c : Character) :
    (validateCharacter c).isValid = (validateCharacter c).errors.isEmpty := by
  have key : ∀ (l w : List String),
      (ValidationResult.mk l.isEmpty l w).isValid =
        (ValidationResult.mk l.isEmpty l w).errors.isEmpty := fun l w => rfl
  exact key (pipelineErrors c) (pipelineWarnings c)

/-- The first component of the ability-score check decomposes into range
errors and the racial dexterity error. -/
theorem validateAbilityScores_fst (c : Character) :
    (validateAbilityScores c).1 = abilityRangeErrors c ++ racialDexterityError c := rfl

/-- An ability name appearing in `abilityEntries` is one of the six keys. -/
theorem abilityEntries_names {A : AbilityScores} {ability : String} {score : Int}
    (h : (ability, score) ∈ abilityEntries A) : ability ∈ abilityNames := by
  simp only [abilityEntries, List.mem_cons, List.not_mem_nil, or_false,
    Prod.mk.injEq] at h
  rcases h with ⟨rfl, -⟩ | ⟨rfl, -⟩ | ⟨rfl, -⟩ | ⟨rfl, -⟩ | ⟨rfl, -⟩ | ⟨rfl, -⟩ <;> decide

/-- Anything in the range-error list lands in the aggregated error list. -/
theorem mem_errors_of_mem_abilityRange {c : Character} {e : String}
    (h : e ∈ abilityRangeErrors c) : e ∈ (validateCharacter c).errors := by
  rw [validateCharacter_errors, validateAbilityScores_fst]
  simp only [List.mem_append]
  tauto

/-- A character whose entry for `ability` is in range contributes no range
error for that ability. -/
theorem rangeError_not_mem_abilityRange {c : Character} {ability : String} {score : Int}
    (hmem : (ability, score) ∈ abilityEntries c.abilityScores)
    (h3 : 3 ≤ score) (h20 : score ≤ 20) :
    rangeError ability ∉ abilityRangeErrors c := by
  intro hin
  obtain ⟨⟨pa, ps⟩, hp, hout, heq⟩ := abilityRangeErrors_shape hin
  simp only [abilityEntries, List.mem_cons, List.not_mem_nil, or_false,
    Prod.mk.injEq] at hmem hp
  rcases hmem with ⟨rfl, rfl⟩ | ⟨rfl, rfl⟩ | ⟨rfl, rfl⟩ | ⟨rfl, rfl⟩ | ⟨rfl, rfl⟩ | ⟨rfl, rfl⟩ <;>
    rcases hp with ⟨rfl, rfl⟩ | ⟨rfl, rfl⟩ | ⟨rfl, rfl⟩ | ⟨rfl, rfl⟩ | ⟨rfl, rfl⟩ | ⟨rfl, rfl⟩ <;>
    simp only at heq hout <;>
    first
      | omega
      | exact absurd heq (by decide)

/-- A range error seen in the aggregated list can only have come from the
ability-score range check: every other pipeline source produces a string that
provably differs. -/
theorem rangeError_only_from_abilityRange {c : Character} {ability : String}
    (hname : ability ∈ abilityNames)
    (hin : rangeError ability ∈ (validateCharacter c).errors) :
    rangeError ability ∈ abilityRangeErrors c := by
  rw [validateCharacter_errors, validateAbilityScores_fst] at hin
  simp only [List.mem_append] at hin
  rcases hin with ((((((((hin | hin) | hin) | hin) | hin) | hin) | hin) | hin) | hin)
  · have hs := validateBasicInfo_shape hin
    fin_cases hname <;> exact absurd hs (by decide)
  · rcases hin with hin | hin
    · exact hin
    · obtain ⟨t, heq⟩ := racialDexterityError_shape hin
      fin_cases hname <;>
        first
          | exact absurd heq.symm (append_ne_of_char_at _ _ _ 0 (by decide) (by decide))
          | exact absurd heq.symm (append_ne_of_char_at _ _ _ 10 (by decide) (by decide))
  · have hs := validateClassRequirements_shape hin
    fin_cases hname <;> exact absurd hs (by decide)
  · rcases validateMulticlassing_shape hin with ⟨t, heq⟩ | ⟨heq, -⟩
    · fin_cases hname <;>
        exact absurd heq.symm (append_ne_of_char_at _ _ _ 1 (by decide) (by decide))
    · fin_cases hname <;> exact absurd heq (by decide)
  · have hs := validateArchetype_shape hin
    fin_cases hname <;> exact absurd hs (by decide)
  · have hs := validateAlignment_shape hin
    fin_cases hname <;> exact absurd hs (by decide)
  · rcases validateSkills_shape hin with ⟨t, heq⟩ | ⟨t, heq⟩
    · fin_cases hname <;>
        exact absurd heq.symm (append_ne_of_char_at _ _ _ 1 (by decide) (by decide))
    · fin_cases hname <;>
        exact absurd heq.symm (append_ne_of_char_at _ _ _ 0 (by decide) (by decide))
  · rcases validateInventory_shape hin with ⟨t, heq⟩ | ⟨t, heq⟩
    · fin_cases hname <;>
        exact absurd heq.symm (append_ne_of_char_at _ _ _ 2 (by decide) (by decide))
    · fin_cases hname <;>
        exact absurd heq.symm (append_ne_of_char_at _ _ _ 1 (by decide) (by decide))
  · rw [validateBackstory_errors] at hin
    simp at hin

end CharacterValidationSystem

/-- Claim C3 (amended) — for every character and every one of the six
abilities, a score outside `[3, 20]` makes `validateCharacter` report the
out-of-range error naming that ability, and a score inside `[3, 20]` means
the out-of-range error for that ability is absent.  (The original claim said
no error naming the ability at all appears for in-range scores; that is
refuted by the class-requirement minimums — see the counterexample.) -/
theorem validateCharacter_abilityRange_spec (c : Character) (ability : String) (score : Int)
    (hmem : (ability, score) ∈ abilityEntries c.abilityScores) :
    ((score < 3 ∨ score > 20) →
      CharacterValidationSystem.rangeError ability ∈
        (CharacterValidationSystem.validateCharacter c).errors) ∧
    (3 ≤ score → score ≤ 20 →
      CharacterValidationSystem.rangeError ability ∉
        (CharacterValidationSystem.validateCharacter c).errors) := by
  constructor
  · intro hout
    apply CharacterValidationSystem.mem_errors_of_mem_abilityRange
    unfold CharacterValidationSystem.abilityRangeErrors
    rw [List.mem_flatMap]
    refine ⟨(ability, score), hmem, ?_⟩
    have hb : (decide (score < 3) || decide (score > 20)) = true := by
      rcases hout with h | h <;> simp [h]
    simp [condMsg, hb]
  · intro h3 h20 hin
    exact CharacterValidationSystem.rangeError_not_mem_abilityRange hmem h3 h20
      (CharacterValidationSystem.rangeError_only_from_abilityRange
        (CharacterValidationSystem.abilityEntries_names hmem) hin)

/-- Witness for C3: for the skewed Wizard, strength 25 (outside range)
produces its range error and dexterity 13 (inside range) has none. -/
theorem validateCharacter_abilityRange_spec_witness :
    CharacterValidationSystem.rangeError "strength" ∈
      (CharacterValidationSystem.validateCharacter skewedWizard).errors ∧
    CharacterValidationSystem.rangeError "dexterity" ∉
      (CharacterValidationSystem.validateCharacter skewedWizard).errors :=
  ⟨(validateCharacter_abilityRange_spec skewedWizard "strength" 25 (by decide)).1
      (Or.inr (by norm_num)),
   (validateCharacter_abilityRange_spec skewedWizard "dexterity" 13 (by decide)).2
      (by norm_num) (by norm_num)⟩

/-- Counterexample to C3 as stated: the Fighter with in-range strength 12
still gets an error naming Strength (the class-requirement minimum), so
in-range scores do not preclude errors naming the ability. -/
theorem validateCharacter_abilityRange_counterexample :
    (("strength", (12 : Int)) ∈ abilityEntries fighterLowStr.abilityScores ∧
      (3 : Int) ≤ 12 ∧ (12 : Int) ≤ 20) ∧
    ∃ e ∈ (CharacterValidationSystem.validateCharacter fighterLowStr).errors,
      mentions e "Strength" := by
  refine ⟨⟨by decide, by norm_num, by norm_num⟩, ?_⟩
  refine ⟨"Strength must be at least 13 for Fighter", by decide,
    "", " must be at least 13 for Fighter", ?_⟩
  decide

namespace CharacterValidationSystem

/-- The first component of the basic-info check decomposes into its five
conditional messages. -/
theorem validateBasicInfo_fst (c : Character) :
    (validateBasicInfo c).1 =
      condMsg ((jsTrim c.name).length < 2) "Character name must be at least 2 characters long" ++
      condMsg (!validRaces.contains c.race)
        ("Invalid race. Must be one of: " ++ String.intercalate ", " validRaces) ++
      condMsg (!validClasses.contains c.«class»)
        ("Invalid class. Must be one of: " ++ String.intercalate ", " validClasses) ++
      condMsg (c.level < 1) "Character level must be at least 1" ++
      condMsg (c.level > 20) "Character level cannot exceed 20" := rfl

/-- Anything the basic-info check pushes lands in the aggregated error list. -/
theorem mem_errors_of_mem_basic {c : Character} {e : String}
    (h : e ∈ (validateBasicInfo c).1) : e ∈ (validateCharacter c).errors := by
  rw [validateCharacter_errors]
  simp only [List.mem_append]
  tauto

/-- Anything the multiclass check pushes lands in the aggregated error list. -/
theorem mem_errors_of_mem_multiclass {c : Character} {e : String}
    (h : e ∈ (validateMulticlassing c).1) : e ∈ (validateCharacter c).errors := by
  rw [validateCharacter_errors]
  simp only [List.mem_append]
  tauto

/-- The total-level error seen in the aggregated list can only have come from
the multiclass check, so the combined level really exceeds 20. -/
theorem totalError_only_from_multiclass {c : Character}
    (hin : "Total character levels cannot exceed 20" ∈ (validateCharacter c).errors) :
    ∃ entries, c.multiclass = some entries ∧
      (entries.map (·.level)).sum + c.level > 20 := by
  rw [validateCharacter_errors, validateAbilityScores_fst] at hin
  simp only [List.mem_append] at hin
  rcases hin with ((((((((hin | hin) | hin) | hin) | hin) | hin) | hin) | hin) | hin)
  · exact absurd (validateBasicInfo_shape hin) (by decide)
  · rcases hin with hin | hin
    · obtain ⟨⟨pa, ps⟩, hp, -, heq⟩ := abilityRangeErrors_shape hin
      simp only at heq
      have hname := abilityEntries_names hp
      fin_cases hname <;> exact absurd heq (by decide)
    · obtain ⟨t, heq⟩ := racialDexterityError_shape hin
      exact absurd heq.symm (append_ne_of_char_at _ _ _ 0 (by decide) (by decide))
  · exact absurd (validateClassRequirements_shape hin) (by decide)
  · rcases validateMulticlassing_shape hin with ⟨t, heq⟩ | ⟨-, hcond⟩
    · exact absurd heq.symm (append_ne_of_char_at _ _ _ 0 (by decide) (by decide))
    · exact hcond
  · exact absurd (validateArchetype_shape hin) (by decide)
  · exact absurd (validateAlignment_shape hin) (by decide)
  · rcases validateSkills_shape hin with ⟨t, heq⟩ | ⟨t, heq⟩
    · exact absurd heq.symm (append_ne_of_char_at _ _ _ 0 (by decide) (by decide))
    · exact absurd heq.symm (append_ne_of_char_at _ _ _ 6 (by decide) (by decide))
  · rcases validateInventory_shape hin with ⟨t, heq⟩ | ⟨t, heq⟩
    · exact absurd heq.symm (append_ne_of_char_at _ _ _ 0 (by decide) (by decide))
    · exact absurd heq.symm (append_ne_of_char_at _ _ _ 0 (by decide) (by decide))
  · rw [validateBackstory_errors] at hin
    simp at hin

end CharacterValidationSystem

/-- Claim C5 — whenever the primary level plus the sum of the multiclass
entry levels exceeds 20, `validateCharacter` reports a blocking error (the
total-level error when a multiclass list is present and non-empty, the basic
level-bound error otherwise); at a combined total of exactly 20 the
total-level check contributes nothing. -/
theorem validateCharacter_totalLevel_spec (c : Character) :
    (c.level + (((c.multiclass.getD []).map (·.level)).sum) > 20 →
      (CharacterValidationSystem.validateCharacter c).errors ≠ []) ∧
    (c.level + (((c.multiclass.getD []).map (·.level)).sum) = 20 →
      "Total character levels cannot exceed 20" ∉
        (CharacterValidationSystem.validateCharacter c).errors) := by
  constructor
  · intro hgt
    have basicCase : c.level > 20 →
        (CharacterValidationSystem.validateCharacter c).errors ≠ [] := by
      intro hl
      apply List.ne_nil_of_mem (a := "Character level cannot exceed 20")
      apply CharacterValidationSystem.mem_errors_of_mem_basic
      rw [CharacterValidationSystem.validateBasicInfo_fst]
      simp only [List.mem_append]
      have : "Character level cannot exceed 20" ∈
          condMsg (c.level > 20) "Character level cannot exceed 20" := by
        simp [condMsg, hl]
      tauto
    rcases hm : c.multiclass with _ | entries
    · rw [hm] at hgt
      simp only [Option.getD_none, List.map_nil, List.sum_nil, add_zero] at hgt
      exact basicCase hgt
    · rcases entries with _ | ⟨ent, rest⟩
      · rw [hm] at hgt
        simp only [Option.getD_some, List.map_nil, List.sum_nil, add_zero] at hgt
        exact basicCase hgt
      · apply List.ne_nil_of_mem (a := "Total character levels cannot exceed 20")
        apply CharacterValidationSystem.mem_errors_of_mem_multiclass
        unfold CharacterValidationSystem.validateMulticlassing
        rw [hm]
        simp only []
        rw [if_neg (by simp)]
        simp only [List.mem_append]
        right
        rw [hm] at hgt
        simp only [Option.getD_some, List.map_cons, List.sum_cons] at hgt
        simp only [condMsg, List.map_cons, List.sum_cons]
        rw [if_pos (by simp only [decide_eq_true_eq]; omega)]
        simp
  · intro heq hin
    obtain ⟨entries, hm, hsum⟩ :=
      CharacterValidationSystem.totalError_only_from_multiclass hin
    rw [hm] at heq
    simp only [Option.getD_some] at heq
    omega

/-- Witness for C5: the over-levelled Paladin (12 + 5 + 4 = 21) fails
validation, and at exactly 20 (12 + 5 + 3) the total-level error is absent. -/
theorem validateCharacter_totalLevel_spec_witness :
    (CharacterValidationSystem.validateCharacter overLeveled).errors ≠ [] ∧
    "Total character levels cannot exceed 20" ∉
      (CharacterValidationSystem.validateCharacter exactlyTwenty).errors :=
  ⟨(validateCharacter_totalLevel_spec overLeveled).1 (by decide),
   (validateCharacter_totalLevel_spec exactlyTwenty).2 (by decide)⟩

/-- Claim C1 — for every character with a non-empty multiclass list,
`validateCharacter` evaluates totally to an aggregated result (it is a total
Lean function into `ValidationResult`, so no failure is ever thrown —
validation errors are only ever strings in the list), its validity flag holds
iff the error list is empty, and every error returned by the delegated
`MulticlassSystem.validateMulticlassing` for an entry is appended to the
aggregated error list. -/
theorem validateCharacter_multiclass_aggregation (c : Character)
    (entries : List MulticlassEntry) (hmc : c.multiclass = some entries)
    (hne : entries ≠ []) :
    ((CharacterValidationSystem.validateCharacter c).isValid = true ↔
      (CharacterValidationSystem.validateCharacter c).errors = []) ∧
    ∀ mc ∈ entries,
      ∀ e ∈ (MulticlassSystem.validateMulticlassing c mc.«class»).errors,
        e ∈ (CharacterValidationSystem.validateCharacter c).errors := by
  constructor
  · rw [CharacterValidationSystem.validateCharacter_isValid]
    exact List.isEmpty_iff
  · intro mc hmcmem e he
    apply CharacterValidationSystem.mem_errors_of_mem_multiclass
    unfold CharacterValidationSystem.validateMulticlassing
    rw [hmc]
    simp only []
    rw [if_neg (by simpa [List.isEmpty_iff] using hne)]
    simp only [List.mem_append]
    left
    rw [List.mem_flatMap]
    refine ⟨mc, hmcmem, ?_⟩
    by_cases hv : (MulticlassSystem.validateMulticlassing c mc.«class»).isValid = true
    · exfalso
      unfold MulticlassSystem.validateMulticlassing at hv he
      split at hv <;> simp_all
    · rw [if_neg hv]
      exact he

/-- Witness for C1: the ineligible multiclass character has a non-empty list,
its delegated error is aggregated, and the validity flag matches the error
list. -/
theorem validateCharacter_multiclass_aggregation_witness :
    ((CharacterValidationSystem.validateCharacter multiclassIneligible).isValid = true ↔
      (CharacterValidationSystem.validateCharacter multiclassIneligible).errors = []) ∧
    "Cannot multiclass into Wizard" ∈
      (CharacterValidationSystem.validateCharacter multiclassIneligible).errors :=
  ⟨(validateCharacter_multiclass_aggregation multiclassIneligible
      [{ «class» := "Wizard", level := 2 }] rfl (by decide)).1,
   (validateCharacter_multiclass_aggregation multiclassIneligible
      [{ «class» := "Wizard", level := 2 }] rfl (by decide)).2
     { «class» := "Wizard", level := 2 } (by decide)
     "Cannot multiclass into Wizard" (by decide)⟩

namespace CharacterValidationSystem

/-- Anything the skills check warns lands in the aggregated warning list. -/
theorem mem_warnings_of_mem_skills {c : Character} {e : String}
    (h : e ∈ (validateSkills c).2) : e ∈ (validateCharacter c).warnings := by
  rw [validateCharacter_warnings]
  simp only [List.mem_append]
  tauto

/-- Anything the inventory check warns lands in the aggregated warning list. -/
theorem mem_warnings_of_mem_inventory {c : Character} {e : String}
    (h : e ∈ (validateInventory c).2) : e ∈ (validateCharacter c).warnings := by
  rw [validateCharacter_warnings]
  simp only [List.mem_append]
  tauto

end CharacterValidationSystem

/-- Claim C9 (amended) — the near-maximum skill warning appears whenever the
skill total is strictly above 80% of the `level * 2` budget, and the
near-capacity inventory warning appears whenever the total weight is strictly
above 80% of the `15 * strength` capacity.  (The original claim said the
warnings appear already at exactly 80%; the source compares with a strict
`>`, refuted by the counterexample.)  Both thresholds are stated in exact
arithmetic: `x > 0.8 * y` iff `5 * x > 4 * y`. -/
theorem validateCharacter_nearThreshold_spec (c : Character) :
    (∀ skills, c.skills = some skills →
      5 * (skills.map Prod.snd).sum > 4 * (c.level * 2) →
      "Skill points are near maximum allocation" ∈
        (CharacterValidationSystem.validateCharacter c).warnings) ∧
    (5 * CharacterValidationSystem.totalInventoryWeight c >
        4 * (15 * c.abilityScores.strength) →
      "Inventory is near maximum carrying capacity" ∈
        (CharacterValidationSystem.validateCharacter c).warnings) := by
  constructor
  · intro skills hsk hgt
    apply CharacterValidationSystem.mem_warnings_of_mem_skills
    unfold CharacterValidationSystem.validateSkills
    rw [hsk]
    simp only [condMsg]
    rw [if_pos (by simp only [decide_eq_true_eq]; omega)]
    simp
  · intro hgt
    apply CharacterValidationSystem.mem_warnings_of_mem_inventory
    unfold CharacterValidationSystem.validateInventory
    simp only [condMsg]
    rw [if_pos (by simp only [decide_eq_true_eq]; omega)]
    simp

/-- Witness for C9: strictly above 80% on both fronts (9 of 10 skill points,
121 of 150 weight), both warnings appear. -/
theorem validateCharacter_nearThreshold_spec_witness :
    "Skill points are near maximum allocation" ∈
      (CharacterValidationSystem.validateCharacter aboveEightyPercent).warnings ∧
    "Inventory is near maximum carrying capacity" ∈
      (CharacterValidationSystem.validateCharacter aboveEightyPercent).warnings :=
  ⟨(validateCharacter_nearThreshold_spec aboveEightyPercent).1
      [("athletics", 9)] rfl (by decide),
   (validateCharacter_nearThreshold_spec aboveEightyPercent).2 (by decide)⟩

/-- Counterexample to C9 as stated: at exactly 80% of both budgets (8 of 10
skill points, 120 of 150 weight) neither warning is emitted, because the
source compares with a strict `>`. -/
theorem validateCharacter_nearThreshold_counterexample :
    (∃ skills, exactlyEightyPercent.skills = some skills ∧
      5 * (skills.map Prod.snd).sum = 4 * (exactlyEightyPercent.level * 2)) ∧
    5 * CharacterValidationSystem.totalInventoryWeight exactlyEightyPercent =
      4 * (15 * exactlyEightyPercent.abilityScores.strength) ∧
    "Skill points are near maximum allocation" ∉
      (CharacterValidationSystem.validateCharacter exactlyEightyPercent).warnings ∧
    "Inventory is near maximum carrying capacity" ∉
      (CharacterValidationSystem.validateCharacter exactlyEightyPercent).warnings := by
  refine ⟨⟨[("athletics", 8)], rfl, by decide⟩, by decide, by decide, by decide⟩

/-- The validation pipeline never reads `id`, `status`, `campaignId` or
`exportedAt`, so rewriting them leaves the result unchanged. -/
theorem validateCharacter_ignores_envelope (c : Character) (i : String)
    (st : Option String) (camp : Option String) (ex : Option Int) :
    CharacterValidationSystem.validateCharacter
        { c with id := i, status := st, campaignId := camp, exportedAt := ex } =
      CharacterValidationSystem.validateCharacter c := rfl

/-- Claim C10 — `exportCharacter` is gated on validity: a character that
fails validation yields `success = false` with exactly the validation errors
and no export data, and export data is produced only when the validation
error list is empty. -/
theorem exportCharacter_gated (now : Int) (exportId : String) (c : Character) :
    ((CharacterValidationSystem.validateCharacter c).isValid = false →
      CharacterExportSystem.exportCharacter now exportId c =
        { success := false, data := none,
          errors := some (CharacterValidationSystem.validateCharacter c).errors }) ∧
    ((CharacterExportSystem.exportCharacter now exportId c).data.isSome = true →
      (CharacterValidationSystem.validateCharacter c).errors = []) := by
  constructor
  · intro h
    unfold CharacterExportSystem.exportCharacter
    rw [if_pos (by simp [h])]
  · intro h
    by_cases hv : (CharacterValidationSystem.validateCharacter c).isValid = true
    · rw [CharacterValidationSystem.validateCharacter_isValid] at hv
      exact List.isEmpty_iff.mp hv
    · exfalso
      unfold CharacterExportSystem.exportCharacter at h
      rw [if_pos (by simp [Bool.eq_false_iff.mpr hv])] at h
      simp at h

/-- Witness for C10: the Fighter with strength 12 fails validation, so its
export carries exactly that error and no data; the valid Fighter exports with
an empty error list. -/
theorem exportCharacter_gated_witness :
    CharacterExportSystem.exportCharacter 0 "e1" fighterLowStr =
      { success := false, data := none,
        errors := some (CharacterValidationSystem.validateCharacter fighterLowStr).errors } ∧
    (CharacterValidationSystem.validateCharacter goodChar).errors = [] :=
  ⟨(exportCharacter_gated 0 "e1" fighterLowStr).1 (by decide),
   (exportCharacter_gated 0 "e1" goodChar).2 (by decide)⟩

/-- Claim C2 (amended) — exporting a character accepted by validation and
importing the unmodified envelope within the age window succeeds and yields
the original character except that the id is the freshly generated one, the
stripped `status` and `campaignId` are absent, and the `exportedAt` stamp is
added (the original claim said the result is equivalent to the original
except for the id only — refuted by the counterexample).  A mismatched
`version` always fails with the version error, and an envelope older than
365×24×3600×1000 ms always fails regardless of version. -/
theorem exportImport_roundtrip_spec :
    (∀ (c : Character) (tExp tImp : Int) (exportId newId : String),
      (CharacterValidationSystem.validateCharacter c).errors = [] →
      tImp - tExp ≤ CharacterExportSystem.MAX_EXPORT_AGE →
      ∃ d, (CharacterExportSystem.exportCharacter tExp exportId c).data = some d ∧
        CharacterExportSystem.importCharacter tImp newId d =
          { success := true,
            character := some { c with
              id := newId, status := none,
              campaignId := none, exportedAt := some tExp },
            errors := none }) ∧
    (∀ (d : ExportFormat) (now : Int) (newId : String), d.version ≠ "1.1.0" →
      CharacterExportSystem.importCharacter now newId d =
        { success := false, character := none,
          errors := some ["Incompatible export version"] }) ∧
    (∀ (d : ExportFormat) (now : Int) (newId : String),
      now - d.timestamp > CharacterExportSystem.MAX_EXPORT_AGE →
      (CharacterExportSystem.importCharacter now newId d).success = false) := by
  refine ⟨?_, ?_, ?_⟩
  · intro c tExp tImp exportId newId herr hage
    have hval : (CharacterValidationSystem.validateCharacter c).isValid = true := by
      rw [CharacterValidationSystem.validateCharacter_isValid, herr]
      rfl
    refine ⟨{ version := "1.1.0", exportId := exportId, timestamp := tExp,
              character := CharacterExportSystem.sanitizeCharacterData tExp c,
              metadata :=
                { validationResult := CharacterValidationSystem.validateCharacter c,
                  exportVersion := "1.1.0" } }, ?_, ?_⟩
    · unfold CharacterExportSystem.exportCharacter
      rw [if_neg (by simp [hval])]
    · unfold CharacterExportSystem.importCharacter
      rw [if_neg (by simp)]
      rw [if_neg (by simp only [not_lt]; exact hage)]
      have hsan : ({ (CharacterExportSystem.sanitizeCharacterData tExp c) with
          id := newId } : Character) =
          { c with
            id := newId, status := none, campaignId := none,
            exportedAt := some tExp } := rfl
      rw [hsan]
      rw [validateCharacter_ignores_envelope c newId none none (some tExp)]
      rw [if_neg (by simp [hval])]
  · intro d now newId hver
    unfold CharacterExportSystem.importCharacter
    rw [if_pos hver]
  · intro d now newId hage
    unfold CharacterExportSystem.importCharacter
    by_cases hver : d.version ≠ "1.1.0"
    · rw [if_pos hver]
    · rw [if_neg hver, if_pos hage]

/-- Witness for C2: the round trip of the valid Fighter succeeds with the
expected stripped-and-stamped character; a version-0.9.0 envelope fails with
the version error; the stale import fails. -/
theorem exportImport_roundtrip_spec_witness :
    (∃ d, (CharacterExportSystem.exportCharacter 0 "e1" goodChar).data = some d ∧
      CharacterExportSystem.importCharacter 0 "n1" d =
        { success := true,
          character := some { goodChar with
            id := "n1", status := none,
            campaignId := none, exportedAt := some 0 },
          errors := none }) ∧
    CharacterExportSystem.importCharacter 0 "n2" badVersionEnvelope =
      { success := false, character := none,
        errors := some ["Incompatible export version"] } ∧
    (CharacterExportSystem.importCharacter (CharacterExportSystem.MAX_EXPORT_AGE + 1)
      "n3" staleEnvelope).success = false :=
  ⟨exportImport_roundtrip_spec.1 goodChar 0 0 "e1" "n1" (by decide) (by decide),
   exportImport_roundtrip_spec.2.1 badVersionEnvelope 0 "n2" (by decide),
   exportImport_roundtrip_spec.2.2 staleEnvelope
     (CharacterExportSystem.MAX_EXPORT_AGE + 1) "n3" (by decide)⟩

/-- Counterexample to C2 as stated: the round trip of the valid Fighter does
succeed, but the imported character is not the original with only a fresh id
— its `status` and `campaignId` were stripped by sanitisation and an
`exportedAt` stamp was added. -/
theorem exportImport_roundtrip_counterexample :
    (∃ ch, roundtrippedGoodChar = some ch) ∧
    roundtrippedGoodChar ≠ some { goodChar with id := "n1" } := by
  constructor
  · exact ⟨{ goodChar with
      id := "n1", status := none, campaignId := none,
      exportedAt := some 0 }, by decide⟩
  · decide

/-- Claim C8 (amended) — `updateCharacterBackground` fails with the not-found
error when no character has the id; for a stored character with a traits
record it replaces exactly the supplied fields — except that a supplied
empty backstory is ignored, because the source merges with the falsy `||`
operator (see the counterexample) — leaves every other field unchanged, and
persists the updated character. -/
theorem updateCharacterBackground_spec :
    (∀ store characterId d,
      CharacterManager.getCharacterById store characterId = none →
      CharacterManager.updateCharacterBackground store characterId d =
        .error "Character not found") ∧
    (∀ store characterId d c t,
      CharacterManager.getCharacterById store characterId = some c →
      c.traits = some t →
      CharacterManager.updateCharacterBackground store characterId d =
        .ok ({ c with
                backstory := CharacterManager.jsOrBackstory d.backstory c.backstory,
                traits := some
                  { personality := d.personality.getD t.personality,
                    ideals := d.ideals.getD t.ideals,
                    bonds := d.bonds.getD t.bonds,
                    flaws := d.flaws.getD t.flaws } },
             CharacterManager.saveCharacter store
               { c with
                  backstory := CharacterManager.jsOrBackstory d.backstory c.backstory,
                  traits := some
                    { personality := d.personality.getD t.personality,
                      ideals := d.ideals.getD t.ideals,
                      bonds := d.bonds.getD t.bonds,
                      flaws := d.flaws.getD t.flaws } })) := by
  constructor
  · intro store characterId d hget
    unfold CharacterManager.updateCharacterBackground
    simp only [hget]
  · intro store characterId d c t hget htraits
    unfold CharacterManager.updateCharacterBackground
    simp only [hget, htraits]

/-- Witness for C8: updating the stored hero with a new backstory and a new
personality list replaces exactly those, keeps the other three trait lists,
and persists. -/
theorem updateCharacterBackground_spec_witness :
    CharacterManager.updateCharacterBackground [storedHero] "c8"
        { backstory := some "A new tale", personality := some ["brave"] } =
      .ok ({ storedHero with
              backstory := some "A new tale",
              traits := some
                { personality := ["brave"], ideals := [], bonds := [], flaws := [] } },
           [{ storedHero with
               backstory := some "A new tale",
               traits := some
                 { personality := ["brave"], ideals := [], bonds := [], flaws := [] } }]) := by
  have h := updateCharacterBackground_spec.2 [storedHero] "c8"
    { backstory := some "A new tale", personality := some ["brave"] } storedHero
    { personality := ["bold"], ideals := [], bonds := [], flaws := [] } (by decide) rfl
  rw [h]
  rfl

/-- Counterexample to C8 as stated: supplying an empty backstory does not
replace the stored one — the falsy merge keeps "An old tale". -/
theorem updateCharacterBackground_counterexample :
    (CharacterManager.updateCharacterBackground [storedHero] "c8"
        { backstory := some "" }).toOption.map (fun p => p.1.backstory) =
      some (some "An old tale") := by decide
